import Mathlib

/-!
Formal model of the payment/shipment backend (`index.js`).

The development shallowly embeds the three mechanisms the repository's
specification is about:

* the Shiprocket credential cache (`getShiprocketToken`, module-level
  `shiprocketToken` / `tokenExpiryTime` state);
* the Razorpay payment-signature verification handler (`/verify-payment`),
  including a full executable HMAC-SHA256 over bytes;
* the Razorpay order-creation handler (`/create-order`) and the Shiprocket
  order-creation handler (`/shiprocket/create-order`).

Time is modelled as a natural number of milliseconds since the epoch; the
two `new Date()` reads inside one call of `getShiprocketToken` are modelled
as a single instant `now`. JavaScript string truthiness (`null`/`undefined`
and `""` are falsy) is modelled explicitly on `Option String`.
-/

/-! ## SHA-256 over byte lists

A direct executable implementation of FIPS 180-4 SHA-256 on `List Nat`
(each element a byte value), with 32-bit words represented as `Nat` reduced
modulo `2 ^ 32`. This is the `crypto.createHmac("sha256", _)` collaborator
used by the `/verify-payment` handler. -/

namespace SHA256

def w32 : Nat := 2 ^ 32

def rotr (n x : Nat) : Nat := ((x >>> n) ||| (x <<< (32 - n))) % w32

def bigSigma0 (x : Nat) : Nat := (rotr 2 x) ^^^ (rotr 13 x) ^^^ (rotr 22 x)

def bigSigma1 (x : Nat) : Nat := (rotr 6 x) ^^^ (rotr 11 x) ^^^ (rotr 25 x)

def smallSigma0 (x : Nat) : Nat := (rotr 7 x) ^^^ (rotr 18 x) ^^^ (x >>> 3)

def smallSigma1 (x : Nat) : Nat := (rotr 17 x) ^^^ (rotr 19 x) ^^^ (x >>> 10)

def ch (x y z : Nat) : Nat := (x &&& y) ^^^ ((x ^^^ (w32 - 1)) &&& z)

def maj (x y z : Nat) : Nat := (x &&& y) ^^^ (x &&& z) ^^^ (y &&& z)

def K : List Nat :=
  [1116352408, 1899447441, 3049323471, 3921009573, 961987163,
   1508970993, 2453635748, 2870763221, 3624381080, 310598401,
   607225278, 1426881987, 1925078388, 2162078206, 2614888103,
   3248222580, 3835390401, 4022224774, 264347078, 604807628,
   770255983, 1249150122, 1555081692, 1996064986, 2554220882,
   2821834349, 2952996808, 3210313671, 3336571891, 3584528711,
   113926993, 338241895, 666307205, 773529912, 1294757372,
   1396182291, 1695183700, 1986661051, 2177026350, 2456956037,
   2730485921, 2820302411, 3259730800, 3345764771, 3516065817,
   3600352804, 4094571909, 275423344, 430227734, 506948616,
   659060556, 883997877, 958139571, 1322822218, 1537002063,
   1747873779, 1955562222, 2024104815, 2227730452, 2361852424,
   2428436474, 2756734187, 3204031479, 3329325298]

def initH : List Nat :=
  [1779033703, 3144134277, 1013904242,
   2773480762, 1359893119, 2600822924,
   528734635, 1541459225]

/-- Extend a 16-word block by `n` further schedule words (48 for SHA-256). -/
def extendSchedule : Nat → List Nat → List Nat
  | 0, ws => ws
  | n + 1, ws =>
      let t := ws.length
      let w := (smallSigma1 (ws.getD (t - 2) 0) + ws.getD (t - 7) 0 +
                smallSigma0 (ws.getD (t - 15) 0) + ws.getD (t - 16) 0) % w32
      extendSchedule n (ws ++ [w])

/-- One SHA-256 round: state is `(a, b, c, d, e, f, g, h)`, input the round
constant paired with the schedule word. -/
def round (st : Nat × Nat × Nat × Nat × Nat × Nat × Nat × Nat) (kw : Nat × Nat) :
    Nat × Nat × Nat × Nat × Nat × Nat × Nat × Nat :=
  let (a, b, c, d, e, f, g, h) := st
  let t1 := (h + bigSigma1 e + ch e f g + kw.1 + kw.2) % w32
  let t2 := (bigSigma0 a + maj a b c) % w32
  ((t1 + t2) % w32, a, b, c, (d + t1) % w32, e, f, g)

/-- Compress one 16-word block into the running hash value. -/
def compressBlock (H : List Nat) (block : List Nat) : List Nat :=
  let ws := extendSchedule 48 block
  let a0 := H.getD 0 0
  let b0 := H.getD 1 0
  let c0 := H.getD 2 0
  let d0 := H.getD 3 0
  let e0 := H.getD 4 0
  let f0 := H.getD 5 0
  let g0 := H.getD 6 0
  let h0 := H.getD 7 0
  let fin := (K.zip ws).foldl round (a0, b0, c0, d0, e0, f0, g0, h0)
  let (a, b, c, d, e, f, g, h) := fin
  [(a0 + a) % w32, (b0 + b) % w32, (c0 + c) % w32, (d0 + d) % w32,
   (e0 + e) % w32, (f0 + f) % w32, (g0 + g) % w32, (h0 + h) % w32]

/-- Iterate `compressBlock` over `n` consecutive 16-word blocks. -/
def hashBlocks : Nat → List Nat → List Nat → List Nat
  | 0, H, _ => H
  | n + 1, H, ws => hashBlocks n (compressBlock H (ws.take 16)) (ws.drop 16)

/-- Merkle–Damgård padding: append `0x80`, zero bytes up to 56 mod 64, then
the 8-byte big-endian bit length. -/
def padMessage (msg : List Nat) : List Nat :=
  let len := msg.length
  let bitLen := len * 8
  let padZeros := (119 - len % 64) % 64
  let lenBytes := (List.range 8).map fun k => (bitLen >>> (8 * (7 - k))) % 256
  msg ++ [0x80] ++ List.replicate padZeros 0 ++ lenBytes

/-- Group a byte list into big-endian 32-bit words. -/
def bytesToWords : List Nat → List Nat
  | b0 :: b1 :: b2 :: b3 :: rest =>
      (((b0 * 256 + b1) * 256 + b2) * 256 + b3) :: bytesToWords rest
  | _ => []

def wordToBytes (w : Nat) : List Nat :=
  [(w >>> 24) % 256, (w >>> 16) % 256, (w >>> 8) % 256, w % 256]

/-- SHA-256 digest of a byte list, as a 32-byte list. -/
def sha256Bytes (msg : List Nat) : List Nat :=
  let ws := bytesToWords (padMessage msg)
  let Hf := hashBlocks (ws.length / 16) initH ws
  (Hf.map wordToBytes).flatten

def hexDigit (n : Nat) : Char :=
  if n < 10 then Char.ofNat (48 + n) else Char.ofNat (87 + n)

def byteToHex (b : Nat) : String :=
  String.mk [hexDigit (b / 16 % 16), hexDigit (b % 16)]

def bytesToHex (bs : List Nat) : String :=
  String.join (bs.map byteToHex)

/-- UTF-8 encoding of one code point, as Node's `hash.update(string)` uses. -/
def utf8EncodeChar (c : Nat) : List Nat :=
  if c < 0x80 then [c]
  else if c < 0x800 then
    [0xC0 ||| (c >>> 6), 0x80 ||| (c &&& 0x3F)]
  else if c < 0x10000 then
    [0xE0 ||| (c >>> 12), 0x80 ||| ((c >>> 6) &&& 0x3F), 0x80 ||| (c &&& 0x3F)]
  else
    [0xF0 ||| (c >>> 18), 0x80 ||| ((c >>> 12) &&& 0x3F),
     0x80 ||| ((c >>> 6) &&& 0x3F), 0x80 ||| (c &&& 0x3F)]

def strToBytes (s : String) : List Nat :=
  (s.data.map fun c => utf8EncodeChar c.toNat).flatten

/-- HMAC-SHA256 (RFC 2104) over byte lists, block size 64. -/
def hmacSha256 (key msg : List Nat) : List Nat :=
  let k0 := if key.length > 64 then sha256Bytes key else key
  let kPad := k0 ++ List.replicate (64 - k0.length) 0
  let ipad := kPad.map fun b => b ^^^ 0x36
  let opad := kPad.map fun b => b ^^^ 0x5c
  sha256Bytes (opad ++ sha256Bytes (ipad ++ msg))

/-- Hex-encoded HMAC-SHA256 of UTF-8 strings: the exact computation
`crypto.createHmac("sha256", key).update(msg).digest("hex")`. -/
def hmacSha256Hex (key msg : String) : String :=
  bytesToHex (hmacSha256 (strToBytes key) (strToBytes msg))

end SHA256

/-! ## JavaScript value helpers -/

/-- JavaScript truthiness of an optional string request/response field:
`undefined`/`null` and the empty string are falsy. -/
def strTruthy : Option String → Bool
  | none => false
  | some s => s ≠ ""

/-- String coercion applied by JavaScript `+` concatenation: an absent field
concatenates as the literal text `"undefined"`. -/
def jsStr : Option String → String
  | none => "undefined"
  | some s => s

/-! ## Shiprocket credential cache

The module-level mutable pair `shiprocketToken` / `tokenExpiryTime` from
`index.js`, and `getShiprocketToken` as a state-passing function. The login
network call is modelled by passing in the `LoginResponse` the vendor would
return if the call were made; `loginCalls` records whether it was made. -/

/-- Response of the Shiprocket `auth/login` endpoint as the handler sees it:
the HTTP success flag and the parsed JSON body's `token` and `message`
fields. -/
structure LoginResponse where
  ok : Bool
  token : Option String
  message : Option String
  deriving DecidableEq

/-- The two module-level variables `shiprocketToken` and `tokenExpiryTime`
(expiry as milliseconds since the epoch). -/
structure CacheState where
  shiprocketToken : Option String
  tokenExpiryTime : Option Nat
  deriving DecidableEq

/-- Process start: both variables are `null`. -/
def initialCache : CacheState := ⟨none, none⟩

/-- The 23-hour validity window `tokenExpiryTime.setHours(getHours() + 23)`
installs, in milliseconds. -/
def tokenValidityMs : Nat := 23 * 60 * 60 * 1000

/-- The vendor token lifetime the code's comment states ("typically 24 hours
for Shiprocket"), in milliseconds. -/
def vendorStatedTokenLifetimeMs : Nat := 24 * 60 * 60 * 1000

/-- The guard `shiprocketToken && tokenExpiryTime && currentTime <
tokenExpiryTime`: a truthy token, a non-null expiry, and a strict time
comparison. -/
def isCacheHit (s : CacheState) (now : Nat) : Bool :=
  strTruthy s.shiprocketToken &&
    (match s.tokenExpiryTime with
     | none => false
     | some e => now < e)

/-- Fallback message of `data.message || "Failed to authenticate with
Shiprocket"`. -/
def loginErrMessage (resp : LoginResponse) : String :=
  match resp.message with
  | some m => if m = "" then "Failed to authenticate with Shiprocket" else m
  | none => "Failed to authenticate with Shiprocket"

instance : DecidableEq (Except String String) := fun x y =>
  match x, y with
  | .ok a, .ok b =>
      if h : a = b then .isTrue (by rw [h]) else .isFalse (by simp [h])
  | .error a, .error b =>
      if h : a = b then .isTrue (by rw [h]) else .isFalse (by simp [h])
  | .ok _, .error _ => .isFalse (by simp)
  | .error _, .ok _ => .isFalse (by simp)

/-- Outcome of one `getShiprocketToken()` call: the returned token or thrown
error message, the cache state after the call, and how many login network
calls were made (0 or 1). -/
structure GetTokenResult where
  result : Except String String
  state : CacheState
  loginCalls : Nat
  deriving DecidableEq

/-- The body of `getShiprocketToken` from `index.js`. On a cache hit the
cached token is returned with no network call; otherwise the login call is
made and the handler branches on the truthiness of `data.token` alone (the
HTTP status `response.ok` is never consulted). The two `new Date()` reads
are modelled as the single instant `now`. -/
def getShiprocketToken (s : CacheState) (now : Nat) (resp : LoginResponse) :
    GetTokenResult :=
  if isCacheHit s now then
    { result := .ok (s.shiprocketToken.getD ""), state := s, loginCalls := 0 }
  else
    match resp.token with
    | some t =>
        if t = "" then
          { result := .error (loginErrMessage resp), state := s, loginCalls := 1 }
        else
          { result := .ok t,
            state := ⟨some t, some (now + tokenValidityMs)⟩,
            loginCalls := 1 }
    | none =>
        { result := .error (loginErrMessage resp), state := s, loginCalls := 1 }

/-! ## Payment signature verification (`POST /verify-payment`) -/

/-- Request body of `/verify-payment`; each field may be absent. -/
structure VerifyRequest where
  razorpay_order_id : Option String
  razorpay_payment_id : Option String
  razorpay_signature : Option String
  deriving DecidableEq

/-- JSON response of `/verify-payment`: HTTP status, the `success` flag, the
`message` text, and the `orderId` / `paymentId` fields (present only when
the handler includes them). -/
structure VerifyResponse where
  status : Nat
  success : Bool
  message : String
  orderId : Option String
  paymentId : Option String
  deriving DecidableEq

/-- The `/verify-payment` handler. `secret` is
`process.env.RAZORPAY_KEY_SECRET`: when it is absent `crypto.createHmac`
throws, the `catch` block answers 500. Otherwise the handler concatenates
`razorpay_order_id + "|" + razorpay_payment_id` (absent fields coerce to
the text `"undefined"`), computes the hex HMAC-SHA256, and compares it to
`razorpay_signature` with `===` (false when the signature is absent). -/
def verifyPayment (secret : Option String) (req : VerifyRequest) :
    VerifyResponse :=
  match secret with
  | none =>
      { status := 500, success := false,
        message := "Internal server error during verification",
        orderId := none, paymentId := none }
  | some key =>
      let sign := jsStr req.razorpay_order_id ++ "|" ++ jsStr req.razorpay_payment_id
      let expectedSignature := SHA256.hmacSha256Hex key sign
      let isAuthentic : Bool :=
        match req.razorpay_signature with
        | some sig => expectedSignature == sig
        | none => false
      if isAuthentic then
        { status := 200, success := true,
          message := "Payment verification successful",
          orderId := req.razorpay_order_id,
          paymentId := req.razorpay_payment_id }
      else
        { status := 400, success := false,
          message := "Payment verification failed",
          orderId := none, paymentId := none }

/-! ## Razorpay order creation (`POST /create-order`)

Amounts are modelled as exact rationals; the handler performs
`amount * 100` with no rounding and no validation before calling
`razorpay.orders.create`. -/

/-- The `options` object passed to `razorpay.orders.create`. -/
structure RazorpayOrderOptions where
  amount : ℚ
  currency : String
  deriving DecidableEq

/-- Construction of `options` in the `/create-order` handler:
`amount: amount * 100` (comment: convert to paise) and
`currency: currency || "INR"`. -/
def createOrderOptions (amount : ℚ) (currency : Option String) :
    RazorpayOrderOptions :=
  { amount := amount * 100,
    currency := if strTruthy currency then currency.getD "" else "INR" }

/-- Outcome of the `/create-order` handler up to the gateway call: the
options it builds, whether the `razorpay.orders.create` network call is
issued, and whether any input check rejected the amount first. -/
structure CreateOrderOutcome where
  options : RazorpayOrderOptions
  gatewayCallMade : Bool
  validationFailed : Bool
  deriving DecidableEq

/-- The `/create-order` handler body before the gateway responds: it builds
`options` and always issues the `razorpay.orders.create` call; there is no
amount check of any kind in the handler. -/
def createOrderHandler (amount : ℚ) (currency : Option String) :
    CreateOrderOutcome :=
  { options := createOrderOptions amount currency,
    gatewayCallMade := true,
    validationFailed := false }

/-! ## Shiprocket order creation (`POST /shiprocket/create-order`) -/

/-- One entry of `order_items` (only the fields the handler reads). -/
structure OrderItem where
  name : Option String
  units : Option Nat
  selling_price : Option Nat
  deriving DecidableEq

/-- Request body of `/shiprocket/create-order`; each required field may be
absent or empty. -/
structure OrderData where
  order_id : Option String
  order_date : Option String
  pickup_location : Option String
  billing_customer_name : Option String
  billing_address : Option String
  billing_city : Option String
  billing_pincode : Option String
  billing_state : Option String
  billing_country : Option String
  billing_email : Option String
  billing_phone : Option String
  order_items : Option (List OrderItem)
  deriving DecidableEq

/-- The handler's validation guard: `!orderData.f` for each required field
(falsy when absent or empty) plus `!order_items || order_items.length === 0`. -/
def orderDataInvalid (d : OrderData) : Bool :=
  !strTruthy d.order_id || !strTruthy d.order_date ||
  !strTruthy d.pickup_location || !strTruthy d.billing_customer_name ||
  !strTruthy d.billing_address || !strTruthy d.billing_city ||
  !strTruthy d.billing_pincode || !strTruthy d.billing_state ||
  !strTruthy d.billing_country || !strTruthy d.billing_email ||
  !strTruthy d.billing_phone ||
  (match d.order_items with
   | none => true
   | some items => items.isEmpty)

/-- Response of the Shiprocket order-creation endpoint as the handler sees
it (`response.ok` and HTTP status). -/
structure ApiResponse where
  ok : Bool
  status : Nat
  deriving DecidableEq

/-- Outcome of one `/shiprocket/create-order` request: HTTP answer, cache
state afterwards, and how many login calls, order-API calls and
operator-notification email attempts were made. -/
structure CreateShipOrderOutcome where
  status : Nat
  success : Bool
  cache : CacheState
  loginCalls : Nat
  orderApiCalls : Nat
  emailAttempts : Nat
  deriving DecidableEq

/-- The `/shiprocket/create-order` handler. It first awaits
`getShiprocketToken()` — before any validation — so a cold or stale cache
makes a login network call even for an invalid payload. A thrown
authentication error reaches the `catch` block (one failure email, 500).
With a token in hand, an invalid payload sends one failure email and
answers 400 with no order-API call; otherwise the order-API call is made
and a non-`ok` response sends one failure email. -/
def shiprocketCreateOrder (s : CacheState) (now : Nat) (loginResp : LoginResponse)
    (orderResp : ApiResponse) (d : OrderData) : CreateShipOrderOutcome :=
  let tk := getShiprocketToken s now loginResp
  match tk.result with
  | .error _ =>
      { status := 500, success := false, cache := tk.state,
        loginCalls := tk.loginCalls, orderApiCalls := 0, emailAttempts := 1 }
  | .ok _ =>
      if orderDataInvalid d then
        { status := 400, success := false, cache := tk.state,
          loginCalls := tk.loginCalls, orderApiCalls := 0, emailAttempts := 1 }
      else if orderResp.ok then
        { status := 200, success := true, cache := tk.state,
          loginCalls := tk.loginCalls, orderApiCalls := 1, emailAttempts := 0 }
      else
        { status := orderResp.status, success := false, cache := tk.state,
          loginCalls := tk.loginCalls, orderApiCalls := 1, emailAttempts := 1 }

/-- A concrete `/shiprocket/create-order` payload that is complete except
for `billing_pincode`. -/
def pincodeMissingOrder : OrderData :=
  { order_id := some "ORD-1", order_date := some "2026-01-01",
    pickup_location := some "Primary",
    billing_customer_name := some "A Customer",
    billing_address := some "1 Street", billing_city := some "City",
    billing_pincode := none, billing_state := some "State",
    billing_country := some "India", billing_email := some "a@b.example",
    billing_phone := some "9999999999",
    order_items := some [⟨some "Item", some 1, some 100⟩] }

set_option maxRecDepth 100000

/-- FIPS 180-4 test vector: SHA-256 of the three-byte message `"abc"`. -/
theorem sha256_abc_vector :
    SHA256.bytesToHex (SHA256.sha256Bytes (SHA256.strToBytes "abc")) =
      "ba7816bf8f01cfea414140de5dae2223b00361a396177a9cb410ff61f20015ad" := by
  decide

/-- Golden vector from the specification's test-vector section: the signature
of `"order_ABC123|pay_XYZ789"` under key `"testsecret"`. -/
theorem hmac_golden_vector :
    SHA256.hmacSha256Hex "testsecret" "order_ABC123|pay_XYZ789" =
      "8ab882b69975648bd036bb84b853484100f7addce5cead23e8a2d9ffe5ba21c8" := by
  decide

/-! ## Shared lemmas about the credential cache -/

/-- A cache hit decomposes into a stored non-empty token, a stored expiry,
and a strictly-in-window clock. -/
theorem isCacheHit_true_elim (s : CacheState) (now : Nat)
    (h : isCacheHit s now = true) :
    ∃ t e, s.shiprocketToken = some t ∧ t ≠ "" ∧
      s.tokenExpiryTime = some e ∧ now < e := by
  obtain ⟨tok, exp⟩ := s
  cases tok with
  | none => simp [isCacheHit, strTruthy] at h
  | some t =>
    cases exp with
    | none => simp [isCacheHit] at h
    | some e =>
      simp only [isCacheHit, strTruthy, Bool.and_eq_true, decide_eq_true_eq] at h
      exact ⟨t, e, rfl, h.1, rfl, h.2⟩

/-- A cache miss does not heal by waiting: at any later instant the guard
still fails (the stored expiry, if any, has only receded further into the
past). -/
theorem isCacheHit_false_mono (s : CacheState) (now now2 : Nat)
    (h : now ≤ now2) (hm : isCacheHit s now = false) :
    isCacheHit s now2 = false := by
  obtain ⟨tok, exp⟩ := s
  cases tok with
  | none => simp [isCacheHit, strTruthy]
  | some t =>
    cases exp with
    | none => simp [isCacheHit]
    | some e =>
      simp only [isCacheHit, strTruthy, Bool.and_eq_false_iff,
        decide_eq_false_iff_not, not_lt] at hm ⊢
      rcases hm with hm | hm
      · exact Or.inl hm
      · exact Or.inr (hm.trans h)

/-- On a cache hit the call returns the stored token with no login call and
no state change. -/
theorem getShiprocketToken_hit (t : String) (e now : Nat) (resp : LoginResponse)
    (ht : t ≠ "") (he : now < e) :
    getShiprocketToken ⟨some t, some e⟩ now resp =
      { result := .ok t, state := ⟨some t, some e⟩, loginCalls := 0 } := by
  have hhit : isCacheHit ⟨some t, some e⟩ now = true := by
    simp [isCacheHit, strTruthy, ht, he]
  unfold getShiprocketToken
  rw [if_pos hhit]
  rfl

/-- On a cache miss exactly one login call is made, whatever the vendor
answers. -/
theorem getShiprocketToken_miss_calls (s : CacheState) (now : Nat)
    (resp : LoginResponse) (hm : isCacheHit s now = false) :
    (getShiprocketToken s now resp).loginCalls = 1 := by
  unfold getShiprocketToken
  rw [if_neg (by simp [hm])]
  cases htok : resp.token with
  | none => rfl
  | some t =>
    by_cases hne : t = ""
    · simp [hne]
    · simp [hne]

/-- On a cache miss answered with a truthy token, the token is returned and
cached with expiry `now + tokenValidityMs`. -/
theorem getShiprocketToken_cold_success (s : CacheState) (now : Nat)
    (resp : LoginResponse) (tk : String) (htk : resp.token = some tk)
    (hne : tk ≠ "") (hm : isCacheHit s now = false) :
    getShiprocketToken s now resp =
      { result := .ok tk,
        state := ⟨some tk, some (now + tokenValidityMs)⟩,
        loginCalls := 1 } := by
  unfold getShiprocketToken
  rw [if_neg (by simp [hm]), htk]
  simp [hne]

/-- On a cache miss answered without a truthy token, the call throws the
vendor message (with the code's fallback text) and the cache is untouched. -/
theorem getShiprocketToken_miss_failure (s : CacheState) (now : Nat)
    (resp : LoginResponse) (hm : isCacheHit s now = false)
    (htok : strTruthy resp.token = false) :
    getShiprocketToken s now resp =
      { result := .error (loginErrMessage resp), state := s, loginCalls := 1 } := by
  unfold getShiprocketToken
  rw [if_neg (by simp [hm])]
  cases hr : resp.token with
  | none => rfl
  | some t =>
    have hne : t = "" := by
      simpa [strTruthy, hr] using htok
    simp [hne]

/-! ## Claim theorems: payment verification -/

/-- Claim C1, counterexample. The claim also asserts that the result echoes
`orderId` and `paymentId`; on a signature mismatch the handler's 400 answer
carries neither, so the echo part fails at this concrete well-formed
request. -/
theorem verifyPayment_mismatch_no_echo :
    (verifyPayment (some "testsecret")
        ⟨some "order_ABC123", some "pay_XYZ789", some "notthesignature"⟩).success
        = false ∧
    (verifyPayment (some "testsecret")
        ⟨some "order_ABC123", some "pay_XYZ789", some "notthesignature"⟩).orderId
        = none ∧
    (verifyPayment (some "testsecret")
        ⟨some "order_ABC123", some "pay_XYZ789", some "notthesignature"⟩).paymentId
        = none := by
  refine ⟨?_, ?_, ?_⟩ <;> decide

/-- Claim C1, amended: with all three fields present and the secret
configured, the verdict is authentic iff the hex HMAC-SHA256 of
`orderId + "|" + paymentId` under the secret equals the client signature
exactly; the result echoes `orderId`/`paymentId` on the authentic verdict
only, and carries neither on a mismatch. -/
theorem verifyPayment_authentic_iff_hmac (key oid pid sig : String) :
    ((verifyPayment (some key) ⟨some oid, some pid, some sig⟩).success = true ↔
      SHA256.hmacSha256Hex key (oid ++ "|" ++ pid) = sig) ∧
    (SHA256.hmacSha256Hex key (oid ++ "|" ++ pid) = sig →
      verifyPayment (some key) ⟨some oid, some pid, some sig⟩ =
        ⟨200, true, "Payment verification successful", some oid, some pid⟩) ∧
    (SHA256.hmacSha256Hex key (oid ++ "|" ++ pid) ≠ sig →
      verifyPayment (some key) ⟨some oid, some pid, some sig⟩ =
        ⟨400, false, "Payment verification failed", none, none⟩) := by
  by_cases h : SHA256.hmacSha256Hex key (oid ++ "|" ++ pid) = sig
  · refine ⟨?_, fun _ => ?_, fun hc => absurd h hc⟩ <;>
      simp [verifyPayment, jsStr, h]
  · refine ⟨?_, fun hc => absurd hc h, fun _ => ?_⟩ <;>
      simp [verifyPayment, jsStr, h]

/-- Claim C1, witness: a request signed with the true HMAC is answered 200
with both identifiers echoed. -/
theorem verifyPayment_authentic_iff_hmac_witness :
    verifyPayment (some "testsecret")
        ⟨some "order_ABC123", some "pay_XYZ789",
          some (SHA256.hmacSha256Hex "testsecret"
            ("order_ABC123" ++ "|" ++ "pay_XYZ789"))⟩ =
      ⟨200, true, "Payment verification successful",
        some "order_ABC123", some "pay_XYZ789"⟩ :=
  (verifyPayment_authentic_iff_hmac "testsecret" "order_ABC123" "pay_XYZ789"
      (SHA256.hmacSha256Hex "testsecret"
        ("order_ABC123" ++ "|" ++ "pay_XYZ789"))).2.1 rfl

/-- Claim C2, counterexample. The claim says a request with missing fields
is an error condition (`ConfigurationError`); the handler instead coerces
the absent fields to the text `"undefined"`, computes the HMAC anyway, and
answers with the ordinary non-authentic 400 verdict. -/
theorem verifyPayment_missing_fields_not_error :
    (verifyPayment (some "testsecret") ⟨none, none, none⟩).status = 400 ∧
    (verifyPayment (some "testsecret") ⟨none, none, none⟩).success = false := by
  refine ⟨?_, ?_⟩ <;> rfl

/-- Claim C2, amended: with the secret configured the handler never throws —
every request, mismatched or malformed, is answered 200-authentic or
400-non-authentic — and only an unavailable secret produces an error
outcome (the caught `crypto.createHmac` exception, answered 500). -/
theorem verifyPayment_no_throw_on_mismatch :
    (∀ key req,
      ((verifyPayment (some key) req).status = 200 ∧
        (verifyPayment (some key) req).success = true) ∨
      ((verifyPayment (some key) req).status = 400 ∧
        (verifyPayment (some key) req).success = false)) ∧
    (∀ req, (verifyPayment none req).status = 500 ∧
      (verifyPayment none req).success = false) := by
  refine ⟨fun key req => ?_, fun req => ⟨rfl, rfl⟩⟩
  unfold verifyPayment
  dsimp only
  split
  · exact Or.inl ⟨rfl, rfl⟩
  · exact Or.inr ⟨rfl, rfl⟩

/-! ## Claim theorems: credential cache -/

/-- Claim C4: while a cached (non-empty, as every stored token is) credential
exists and the clock is strictly before its expiry, `getShiprocketToken`
returns the cached token, makes no login call, and leaves both cache
variables unchanged. -/
theorem getShiprocketToken_cache_hit (t : String) (e now : Nat)
    (resp : LoginResponse) (ht : t ≠ "") (he : now < e) :
    getShiprocketToken ⟨some t, some e⟩ now resp =
      { result := .ok t, state := ⟨some t, some e⟩, loginCalls := 0 } :=
  getShiprocketToken_hit t e now resp ht he

/-- Claim C4, witness. -/
theorem getShiprocketToken_cache_hit_witness :
    getShiprocketToken ⟨some "tok", some 1000⟩ 500 ⟨true, some "other", none⟩ =
      { result := .ok "tok", state := ⟨some "tok", some 1000⟩,
        loginCalls := 0 } :=
  getShiprocketToken_cache_hit "tok" 1000 500 ⟨true, some "other", none⟩
    (by decide) (by decide)

/-- Claim C5, counterexample. The claim counts a non-success HTTP response
as a failed login, but the handler never consults `response.ok`: a
non-success response whose body still has a truthy `token` field is
accepted, returned, and cached instead of raising an error. -/
theorem getShiprocketToken_ignores_http_status :
    (getShiprocketToken initialCache 0
        ⟨false, some "tokNS", some "Unauthorized"⟩).result = .ok "tokNS" ∧
    (getShiprocketToken initialCache 0
        ⟨false, some "tokNS", some "Unauthorized"⟩).state ≠ initialCache := by
  refine ⟨?_, ?_⟩ <;> decide

/-- Claim C5, amended: a login attempt fails exactly when the response body
lacks a truthy `token` field (the HTTP status flag is ignored); then the
call throws the vendor `message` (or the fixed fallback text), the cache is
unchanged, and every later call — at the same or any later instant — makes
a fresh login attempt. -/
theorem getShiprocketToken_login_failure (s : CacheState) (now : Nat)
    (resp : LoginResponse) (hm : isCacheHit s now = false)
    (htok : strTruthy resp.token = false) :
    (getShiprocketToken s now resp).result = .error (loginErrMessage resp) ∧
    (getShiprocketToken s now resp).state = s ∧
    (getShiprocketToken s now resp).loginCalls = 1 ∧
    (∀ now2 resp2, now ≤ now2 →
      (getShiprocketToken s now2 resp2).loginCalls = 1) := by
  rw [getShiprocketToken_miss_failure s now resp hm htok]
  refine ⟨rfl, rfl, rfl, fun now2 resp2 h2 => ?_⟩
  exact getShiprocketToken_miss_calls s now2 resp2
    (isCacheHit_false_mono s now now2 h2 hm)

/-- Claim C5, witness. -/
theorem getShiprocketToken_login_failure_witness :
    (getShiprocketToken initialCache 7
        ⟨false, none, some "Bad credentials"⟩).result =
      .error "Bad credentials" ∧
    (getShiprocketToken initialCache 7
        ⟨false, none, some "Bad credentials"⟩).state = initialCache ∧
    (getShiprocketToken initialCache 9
        ⟨true, some "t2", none⟩).loginCalls = 1 := by
  have T := getShiprocketToken_login_failure initialCache 7
    ⟨false, none, some "Bad credentials"⟩ (by decide) (by decide)
  exact ⟨T.1, T.2.1, T.2.2.2 9 ⟨true, some "t2", none⟩ (by decide)⟩

/-- Claim C6: starting cold with every login succeeding, the first call
makes exactly one login; every call strictly inside the 23-hour validity
window makes zero logins and leaves the cache unchanged; and the first call
at or after the expiry makes exactly one more login. -/
theorem getShiprocketToken_login_schedule (t0 : Nat) (resp1 : LoginResponse)
    (h1 : strTruthy resp1.token = true) :
    (getShiprocketToken initialCache t0 resp1).loginCalls = 1 ∧
    (∀ t resp, t < t0 + tokenValidityMs →
      (getShiprocketToken (getShiprocketToken initialCache t0 resp1).state
          t resp).loginCalls = 0 ∧
      (getShiprocketToken (getShiprocketToken initialCache t0 resp1).state
          t resp).state =
        (getShiprocketToken initialCache t0 resp1).state) ∧
    (∀ t resp2, t0 + tokenValidityMs ≤ t →
      (getShiprocketToken (getShiprocketToken initialCache t0 resp1).state
          t resp2).loginCalls = 1) := by
  obtain ⟨tk, htk, hne⟩ : ∃ tk, resp1.token = some tk ∧ tk ≠ "" := by
    cases hr : resp1.token with
    | none => simp [strTruthy, hr] at h1
    | some t => exact ⟨t, rfl, by simpa [strTruthy, hr] using h1⟩
  have hcold : getShiprocketToken initialCache t0 resp1 =
      { result := .ok tk,
        state := ⟨some tk, some (t0 + tokenValidityMs)⟩, loginCalls := 1 } :=
    getShiprocketToken_cold_success initialCache t0 resp1 tk htk hne rfl
  refine ⟨by rw [hcold], fun t resp hlt => ?_, fun t resp2 hge => ?_⟩
  · rw [hcold, getShiprocketToken_hit tk (t0 + tokenValidityMs) t resp hne hlt]
    exact ⟨rfl, rfl⟩
  · rw [hcold]
    refine getShiprocketToken_miss_calls _ t resp2 ?_
    simp [isCacheHit, Nat.not_lt.mpr hge]

/-- Claim C6, witness. -/
theorem getShiprocketToken_login_schedule_witness :
    (getShiprocketToken initialCache 0 ⟨true, some "tokA", none⟩).loginCalls
      = 1 ∧
    (getShiprocketToken
        (getShiprocketToken initialCache 0 ⟨true, some "tokA", none⟩).state
        1 ⟨true, some "tokB", none⟩).loginCalls = 0 ∧
    (getShiprocketToken
        (getShiprocketToken initialCache 0 ⟨true, some "tokA", none⟩).state
        tokenValidityMs ⟨true, some "tokC", none⟩).loginCalls = 1 := by
  have T := getShiprocketToken_login_schedule 0 ⟨true, some "tokA", none⟩
    (by decide)
  exact ⟨T.1, (T.2.1 1 ⟨true, some "tokB", none⟩ (by decide)).1,
    T.2.2 tokenValidityMs ⟨true, some "tokC", none⟩ (by simp)⟩

/-- Claim C7: whenever a credential is stored, its expiry is the issuance
instant plus the 23-hour safety-margined window, strictly before the
vendor's stated 24-hour lifetime would end; and a stored credential is
served without a login only while the clock is strictly before the stored
expiry. -/
theorem getShiprocketToken_expiry_margin (s : CacheState) (now : Nat)
    (resp : LoginResponse) :
    (isCacheHit s now = false → strTruthy resp.token = true →
      (getShiprocketToken s now resp).state.tokenExpiryTime =
        some (now + tokenValidityMs) ∧
      now + tokenValidityMs < now + vendorStatedTokenLifetimeMs) ∧
    ((getShiprocketToken s now resp).loginCalls = 0 →
      ∃ e, s.tokenExpiryTime = some e ∧ now < e) := by
  constructor
  · intro hm htok
    obtain ⟨tk, htk, hne⟩ : ∃ tk, resp.token = some tk ∧ tk ≠ "" := by
      cases hr : resp.token with
      | none => simp [strTruthy, hr] at htok
      | some t => exact ⟨t, rfl, by simpa [strTruthy, hr] using htok⟩
    rw [getShiprocketToken_cold_success s now resp tk htk hne hm]
    exact ⟨rfl, Nat.add_lt_add_left (by decide) now⟩
  · intro h0
    by_cases hm : isCacheHit s now = true
    · obtain ⟨t, e, _, _, he, hlt⟩ := isCacheHit_true_elim s now hm
      exact ⟨e, he, hlt⟩
    · have := getShiprocketToken_miss_calls s now resp
        (by simpa using hm)
      rw [this] at h0
      exact absurd h0 one_ne_zero

/-- Claim C7, witness. -/
theorem getShiprocketToken_expiry_margin_witness :
    ((getShiprocketToken initialCache 42 ⟨true, some "tokM", none⟩).state.tokenExpiryTime =
        some (42 + tokenValidityMs) ∧
      42 + tokenValidityMs < 42 + vendorStatedTokenLifetimeMs) ∧
    (∃ e, (⟨some "tokM", some 100⟩ : CacheState).tokenExpiryTime = some e ∧
      50 < e) :=
  ⟨(getShiprocketToken_expiry_margin initialCache 42
      ⟨true, some "tokM", none⟩).1 (by decide) (by decide),
    (getShiprocketToken_expiry_margin ⟨some "tokM", some 100⟩ 50
      ⟨true, some "x", none⟩).2 (by decide)⟩

/-- Claim C10: a successful `getShiprocketToken` call always leaves the
returned token as the stored one, a non-null stored expiry strictly after
the instant of return — so the state immediately after a success is a
cache-hit state. -/
theorem getShiprocketToken_success_cache_valid (s : CacheState) (now : Nat)
    (resp : LoginResponse) (t : String)
    (h : (getShiprocketToken s now resp).result = .ok t) :
    (getShiprocketToken s now resp).state.shiprocketToken = some t ∧
    (∃ e, (getShiprocketToken s now resp).state.tokenExpiryTime = some e ∧
      now < e) ∧
    isCacheHit (getShiprocketToken s now resp).state now = true := by
  by_cases hm : isCacheHit s now = true
  · obtain ⟨t0, e, hs, hne, he, hlt⟩ := isCacheHit_true_elim s now hm
    have hseq : s = ⟨some t0, some e⟩ := by
      obtain ⟨tok, exp⟩ := s
      simp only at hs he
      rw [hs, he]
    rw [hseq] at h ⊢
    rw [getShiprocketToken_hit t0 e now resp hne hlt] at h ⊢
    have ht : t0 = t := by simpa using h
    subst ht
    exact ⟨rfl, ⟨e, rfl, hlt⟩, by simp [isCacheHit, strTruthy, hne, hlt]⟩
  · have hm' : isCacheHit s now = false := by simpa using hm
    cases hr : resp.token with
    | none =>
      rw [getShiprocketToken_miss_failure s now resp hm'
        (by simp [strTruthy, hr])] at h
      exact absurd h (by simp)
    | some tk =>
      by_cases hne : tk = ""
      · rw [getShiprocketToken_miss_failure s now resp hm'
          (by simp [strTruthy, hr, hne])] at h
        exact absurd h (by simp)
      · rw [getShiprocketToken_cold_success s now resp tk hr hne hm'] at h ⊢
        have ht : tk = t := by simpa using h
        subst ht
        refine ⟨rfl, ⟨now + tokenValidityMs, rfl, ?_⟩, ?_⟩
        · exact Nat.lt_add_of_pos_right (show 0 < tokenValidityMs by decide)
        · simp [isCacheHit, strTruthy, hne]
          exact Nat.lt_add_of_pos_right (show 0 < tokenValidityMs by decide)

/-- Claim C10, witness. -/
theorem getShiprocketToken_success_cache_valid_witness :
    (getShiprocketToken initialCache 0
        ⟨true, some "tokV", none⟩).state.shiprocketToken = some "tokV" ∧
    (∃ e, (getShiprocketToken initialCache 0
        ⟨true, some "tokV", none⟩).state.tokenExpiryTime = some e ∧ 0 < e) ∧
    isCacheHit (getShiprocketToken initialCache 0
        ⟨true, some "tokV", none⟩).state 0 = true :=
  getShiprocketToken_success_cache_valid initialCache 0
    ⟨true, some "tokV", none⟩ "tokV" (by decide)

/-! ## Claim theorems: Shiprocket order creation -/

/-- Claim C3, counterexample. The handler awaits `getShiprocketToken()`
before validating the payload, so with a cold cache a payload missing
`billing_pincode` still causes one login network call — the claim requires
zero network calls including the login. -/
theorem createShipOrder_login_before_validation :
    (shiprocketCreateOrder initialCache 0 ⟨true, some "tok1", none⟩
        ⟨true, 200⟩ pincodeMissingOrder).loginCalls = 1 ∧
    (shiprocketCreateOrder initialCache 0 ⟨true, some "tok1", none⟩
        ⟨true, 200⟩ pincodeMissingOrder).emailAttempts = 1 := by
  refine ⟨?_, ?_⟩ <;> decide

/-- Claim C3, amended: a payload whose `billing_pincode` is missing (or
empty) is rejected before the shipment-order-creation API call — that call
is never made — and exactly one operator-notification email attempt is
made; the credential-cache login call, however, may still happen first,
since the token is fetched before validation. -/
theorem createShipOrder_missing_pincode_rejected (s : CacheState) (now : Nat)
    (lr : LoginResponse) (orq : ApiResponse) (d : OrderData)
    (h : strTruthy d.billing_pincode = false) :
    (shiprocketCreateOrder s now lr orq d).orderApiCalls = 0 ∧
    (shiprocketCreateOrder s now lr orq d).emailAttempts = 1 := by
  have hinv : orderDataInvalid d = true := by
    unfold orderDataInvalid
    simp [h]
  unfold shiprocketCreateOrder
  cases hres : (getShiprocketToken s now lr).result with
  | error e =>
      simp only [hres]
      exact ⟨trivial, trivial⟩
  | ok t =>
      simp only [hres, hinv, if_true]
      exact ⟨trivial, trivial⟩

/-- Claim C3, witness. -/
theorem createShipOrder_missing_pincode_rejected_witness :
    (shiprocketCreateOrder ⟨some "tokW", some 100⟩ 50 ⟨true, some "x", none⟩
        ⟨true, 200⟩ pincodeMissingOrder).orderApiCalls = 0 ∧
    (shiprocketCreateOrder ⟨some "tokW", some 100⟩ 50 ⟨true, some "x", none⟩
        ⟨true, 200⟩ pincodeMissingOrder).emailAttempts = 1 :=
  createShipOrder_missing_pincode_rejected ⟨some "tokW", some 100⟩ 50
    ⟨true, some "x", none⟩ ⟨true, 200⟩ pincodeMissingOrder (by decide)

/-! ## Claim theorems: order amount conversion -/

/-- Claim C8, counterexample. The handler multiplies by 100 without
rounding: the non-negative finite decimal amount `0.005` is sent outbound
as `0.5`, which is not an integer, so the claimed round-to-nearest-integer
conversion does not happen. -/
theorem createOrder_amount_not_rounded :
    (createOrderOptions (1 / 200 : ℚ) (some "INR")).amount = 1 / 2 ∧
    ¬ ∃ n : ℤ, (createOrderOptions (1 / 200 : ℚ) (some "INR")).amount = (n : ℚ) := by
  have hamt : (createOrderOptions (1 / 200 : ℚ) (some "INR")).amount = 1 / 2 := by
    simp only [createOrderOptions]
    norm_num
  refine ⟨hamt, ?_⟩
  rintro ⟨n, hn⟩
  rw [hamt] at hn
  have h2 : ((2 * n : ℤ) : ℚ) = 1 := by
    push_cast
    linarith [hn.symm]
  have h3 : (2 * n : ℤ) = 1 := by exact_mod_cast h2
  omega

/-- Claim C8, amended: the conversion performed before the gateway call is
exactly multiplication by the minor-unit factor 100 with no rounding step,
so the outbound amount is `amount * 100` (an integer only when the amount
is a whole number of hundredths); in exact arithmetic `19.99` for INR
yields `1999`. -/
theorem createOrder_amount_times_100 (a : ℚ) (c : Option String) :
    (createOrderOptions a c).amount = a * 100 ∧
    (createOrderHandler a c).options = createOrderOptions a c ∧
    (createOrderOptions (19.99 : ℚ) (some "INR")).amount = 1999 := by
  refine ⟨rfl, rfl, ?_⟩
  simp only [createOrderOptions]
  norm_num

/-- Claim C9, counterexample. The `/create-order` handler performs no amount
check of any kind: with `amount = -1` no `ValidationError` is raised and
the gateway order-creation call is still made, with outbound amount
`-100`. -/
theorem createOrder_negative_amount_passes_through :
    (createOrderHandler (-1 : ℚ) (some "INR")).gatewayCallMade = true ∧
    (createOrderHandler (-1 : ℚ) (some "INR")).validationFailed = false ∧
    (createOrderHandler (-1 : ℚ) (some "INR")).options.amount = -100 := by
  refine ⟨rfl, rfl, ?_⟩
  simp only [createOrderHandler, createOrderOptions]
  norm_num

/-- Claim C9, amended: the handler validates nothing about the amount —
for every amount, negative included, no validation failure is raised, the
gateway call is made, and the outbound amount is `amount * 100`; rejection
of bad amounts is left entirely to the payment gateway. -/
theorem createOrder_no_amount_check (a : ℚ) (c : Option String) :
    (createOrderHandler a c).gatewayCallMade = true ∧
    (createOrderHandler a c).validationFailed = false ∧
    (createOrderHandler a c).options.amount = a * 100 :=
  ⟨rfl, rfl, rfl⟩
